import Mathlib

/-!
Shallow embedding of the apigrate/sortly connector (a thin HTTP client for the
Sortly REST API) for checking its natural-language specification.

The repository contains two generations of the connector:

* the v1 `Sortly` class (request-promise-native based), whose response
  normalization lives in `handleResponse(resp, reqbody, req)`;
* the v2 `SortlyConnector` class (node-fetch based), whose request building
  lives in `doFetch` and whose non-2xx normalization lives in `handleNotOk`,
  with per-endpoint operations (`createItem`, `fetchItem`, `moveItem`,
  `updateItem`, `deleteItem`, `listCustomAttributes`) on top.

Both are embedded below.  JavaScript values appearing in the data flow are
modelled explicitly: JSON documents by `Json`, the distinction between
`undefined` / `null` / a value by `JsResult` and `JsVal`, thrown errors by
`JsErr` (one constructor per error class the code constructs).  The HTTP
transport is a collaborator: each embedded call takes the `FetchResp` the
transport would deliver and returns the requests issued, the connector state
after the call, and the result or thrown error.
-/

namespace Sortly

/-- A decoded JSON document (a parsed JavaScript value). -/
inductive Json where
  | null
  | bool (b : Bool)
  | num (n : Int)
  | str (s : String)
  | arr (elems : List Json)
  | obj (fields : List (String × Json))

/-- JavaScript truthiness of a JSON value. -/
def Json.truthy : Json → Bool
  | .null => false
  | .bool b => b
  | .num n => n != 0
  | .str s => s != ""
  | .arr _ => true
  | .obj _ => true

/-- Property access `j.name`: `some` the field value on an object that has it,
`none` (JavaScript `undefined`) otherwise. -/
def Json.getField : Json → String → Option Json
  | .obj fields, name => fields.lookup name
  | _, _ => none

/-- Truthiness of a possibly-`undefined` JavaScript value (`none` = `undefined`). -/
def truthyOpt : Option Json → Bool
  | none => false
  | some j => j.truthy

/-- Truthiness of a possibly-missing numeric id (`!id` check in the code). -/
def truthyId : Option Int → Bool
  | none => false
  | some n => n != 0

/-- Lower-case hex digit, for JSON string escapes. -/
def hexDigit (n : Nat) : String :=
  if n = 0 then "0" else if n = 1 then "1" else if n = 2 then "2"
  else if n = 3 then "3" else if n = 4 then "4" else if n = 5 then "5"
  else if n = 6 then "6" else if n = 7 then "7" else if n = 8 then "8"
  else if n = 9 then "9" else if n = 10 then "a" else if n = 11 then "b"
  else if n = 12 then "c" else if n = 13 then "d" else if n = 14 then "e"
  else "f"

/-- One character of `JSON.stringify` string escaping. -/
def jsonEscapeChar (c : Char) : String :=
  if c = '"' then "\\\""
  else if c = '\\' then "\\\\"
  else if c = '\n' then "\\n"
  else if c = '\r' then "\\r"
  else if c = '\t' then "\\t"
  else if c = Char.ofNat 8 then "\\b"
  else if c = Char.ofNat 12 then "\\f"
  else if c.toNat < 32 then "\\u00" ++ hexDigit (c.toNat / 16) ++ hexDigit (c.toNat % 16)
  else String.singleton c

/-- `JSON.stringify` escaping of a string body. -/
def jsonEscape (s : String) : String :=
  String.join (s.data.map jsonEscapeChar)

mutual

/-- `JSON.stringify` of a decoded value. -/
def Json.stringify : Json → String
  | .null => "null"
  | .bool true => "true"
  | .bool false => "false"
  | .num n => toString n
  | .str s => "\"" ++ jsonEscape s ++ "\""
  | .arr es => "[" ++ stringifyElems es ++ "]"
  | .obj fs => "\x7b" ++ stringifyMembers fs ++ "\x7d"

/-- Comma-separated serialization of array elements. -/
def stringifyElems : List Json → String
  | [] => ""
  | [j] => Json.stringify j
  | j :: js => Json.stringify j ++ "," ++ stringifyElems js

/-- Comma-separated serialization of object members. -/
def stringifyMembers : List (String × Json) → String
  | [] => ""
  | [(k, v)] => "\"" ++ jsonEscape k ++ "\":" ++ Json.stringify v
  | (k, v) :: kvs => "\"" ++ jsonEscape k ++ "\":" ++ Json.stringify v ++ "," ++ stringifyMembers kvs

end

mutual

/-- JavaScript string interpolation of a value (template literal coercion). -/
def Json.display : Json → String
  | .null => "null"
  | .bool true => "true"
  | .bool false => "false"
  | .num n => toString n
  | .str s => s
  | .arr es => displayElems es
  | .obj _ => "[object Object]"

/-- Array-to-string coercion: elements joined by commas. -/
def displayElems : List Json → String
  | [] => ""
  | [j] => Json.display j
  | j :: js => Json.display j ++ "," ++ displayElems js

end

/-- What a connector call hands back on success, keeping the JavaScript
distinction between returning `undefined` (a bare `return;`), returning
`null`, and returning a JSON value. -/
inductive JsResult where
  | undefined
  | null
  | val (j : Json)

/-- Truthiness of a returned value. -/
def JsResult.truthy : JsResult → Bool
  | .undefined => false
  | .null => false
  | .val j => j.truthy

/-- Property access `result.name` on a returned value (guarded by a truthiness
check in the code, so the `undefined`/`null` cases are never reached there). -/
def JsResult.field (r : JsResult) (name : String) : Option Json :=
  match r with
  | .val j => j.getField name
  | _ => none

/-- An error thrown by the connector code, one constructor per construction
site class: plain `new Error(msg)`; the v1 `RateLimitExceeded` class; the v2
`ApiError(msg, status)` class (whose `message` is the thrown value's `message`
argument, possibly `undefined`, and whose `status` is possibly `undefined`);
the v2 `ApiAuthError` subclass of `ApiError`; a JavaScript `ReferenceError`
from evaluating an undeclared variable; a JavaScript `TypeError` from reading
the property `prop` of a `null` receiver; and a body JSON-parse failure from
`response.json()`. -/
inductive JsErr where
  | error (msg : String)
  | rateLimitExceeded (msg : String)
  | apiError (msg : Option Json) (status : Option Int)
  | apiAuthError (msg : String) (status : Int)
  | referenceError (varName : String)
  | typeError (prop : String)
  | jsonParseError

/-- `instanceof ApiError` (v2): `ApiAuthError extends ApiError`, so both
classes are instances; the v1 classes and parse errors are not. -/
def JsErr.isApiError : JsErr → Bool
  | .apiError _ _ => true
  | .apiAuthError _ _ => true
  | _ => false

/-- `instanceof ApiAuthError` / the spec's AuthorizationError kind. -/
def JsErr.isAuthError : JsErr → Bool
  | .apiAuthError _ _ => true
  | _ => false

/-- `instanceof RateLimitExceeded` / the spec's RateLimitExceededError kind. -/
def JsErr.isRateLimitExceeded : JsErr → Bool
  | .rateLimitExceeded _ => true
  | _ => false

/-- The `.status` property of a thrown error (`undefined` when the class has
none or the constructor was called without it). -/
def JsErr.status : JsErr → Option Int
  | .apiError _ s => s
  | .apiAuthError _ s => some s
  | _ => none

/-! ## v1 connector (`Sortly` class, request-promise-native)

`handleResponse(resp, reqbody, req)` receives either the full response (2xx)
or the `StatusCodeError` thrown by request-promise-native (everything else);
in the latter case the response lives under `resp.response`.  One structure
carries both shapes: `headers`/`body` are the 2xx-path fields, `respHeaders`/
`respBody` model `resp.response.headers`/`resp.response.body`, and `message`
models `resp.message`. -/

/-- A v1 connector-level value: the rate-limit bookkeeping fields start life
as the number `0` and are overwritten with header strings (or `undefined`). -/
inductive JsVal where
  | undefined
  | num (n : Int)
  | str (s : String)

/-- Template-literal coercion of a v1 field value (as in the 429 message). -/
def JsVal.display : JsVal → String
  | .undefined => "undefined"
  | .num n => toString n
  | .str s => s

/-- The mutable rate-limit bookkeeping on a v1 `Sortly` instance. -/
structure V1State where
  rate_limit : JsVal
  rate_limit_remaining : JsVal
  rate_limit_reset : JsVal
  request_id : JsVal

/-- The request descriptor `req` as `handleResponse` reads it. -/
structure V1Req where
  method : String
  uri : String

/-- The argument of v1 `handleResponse`: status code, the 2xx-path headers and
parsed body, and the error-path `message` / `response.headers` /
`response.body`. -/
structure V1Resp where
  statusCode : Int
  headers : List (String × String)
  body : Json
  message : String
  respHeaders : List (String × String)
  respBody : Json

/-- Header lookup on a request-promise-native headers object (names already
lower-cased by the library). -/
def headerLookup (hs : List (String × String)) (name : String) : Option String :=
  hs.lookup name

/-- A header read with no fallback: absent becomes `undefined`. -/
def toJsVal : Option String → JsVal
  | some s => .str s
  | none => .undefined

/-- The JavaScript `h || old` fallback used on the v1 error path: the header
value when truthy (present and non-empty), the prior field value otherwise. -/
def jsOr (h : Option String) (old : JsVal) : JsVal
  := match h with
     | some s => if s = "" then old else .str s
     | none => old

/-- The rate-limit fields as the v1 2xx branch rewrites them: straight from
the response headers, with no fallback to the prior values. -/
def v1SuccessState (resp : V1Resp) : V1State :=
  ⟨toJsVal (headerLookup resp.headers "sortly-rate-limit-max"),
   toJsVal (headerLookup resp.headers "sortly-rate-limit-remaining"),
   toJsVal (headerLookup resp.headers "sortly-rate-limit-reset"),
   toJsVal (headerLookup resp.headers "x-request-id")⟩

/-- The rate-limit fields as the v1 error branch rewrites them: header value
`||` prior value for the three rate-limit fields, no fallback for
`request_id`. -/
def v1ErrorState (st : V1State) (resp : V1Resp) : V1State :=
  ⟨jsOr (headerLookup resp.respHeaders "sortly-rate-limit-max") st.rate_limit,
   jsOr (headerLookup resp.respHeaders "sortly-rate-limit-remaining") st.rate_limit_remaining,
   jsOr (headerLookup resp.respHeaders "sortly-rate-limit-reset") st.rate_limit_reset,
   toJsVal (headerLookup resp.respHeaders "x-request-id")⟩

/-- `${reqbody ? JSON.stringify(reqbody) : ""}` in the v1 error messages. -/
def sentBody : Option Json → String
  | some b => Json.stringify b
  | none => ""

/-- The non-2xx classification of v1 `handleResponse`, after the rate-limit
fields have been updated to `st'` (the 429 message interpolates the updated
`rate_limit_reset`): 400/401/404/429/other-4xx switch, then 5xx, then the
3xx-and-below fall-through that evaluates the undeclared `responseBody`. -/
def v1ErrResult (st' : V1State) (resp : V1Resp) (reqbody : Option Json)
    (req : V1Req) : Except JsErr JsResult :=
  if 400 ≤ resp.statusCode ∧ resp.statusCode < 500 then
    if resp.statusCode = 400 then
      .error (.error ("Request Error on " ++ req.method ++ " " ++ req.uri ++
        " (HTTP-" ++ toString resp.statusCode ++ "). " ++ resp.message ++
        "\n\tsent:" ++ sentBody reqbody ++
        "\n\treceived:" ++ Json.stringify resp.respBody))
    else if resp.statusCode = 401 then
      .error (.error ("Authorization Error on " ++ req.method ++ " " ++ req.uri ++
        " (HTTP-" ++ toString resp.statusCode ++ "). " ++ resp.message))
    else if resp.statusCode = 404 then
      if req.method = "GET" then .ok .null
      else
        .error (.error ("Invalid URI on " ++ req.method ++ " " ++ req.uri ++
          " (HTTP-" ++ toString resp.statusCode ++ ")."))
    else if resp.statusCode = 429 then
      .error (.rateLimitExceeded ("Sortly rate limit exceeded on " ++ req.method ++
        " " ++ req.uri ++ ". Try again in " ++ st'.rate_limit_reset.display ++ " seconds."))
    else
      .error (.error ("Unhandled Error on " ++ req.method ++ " " ++ req.uri ++
        " (HTTP-" ++ toString resp.statusCode ++ "). " ++ resp.message))
  else if 500 ≤ resp.statusCode then
    .error (.error ("Sortly Server Error on " ++ req.method ++ " " ++ req.uri ++
      " (HTTP-" ++ toString resp.statusCode ++ ").\n\tsent:" ++ sentBody reqbody ++
      "\n\treceived:" ++ Json.stringify resp.respBody))
  else
    .error (.referenceError "responseBody")

/-- v1 `Sortly.handleResponse`: 2xx updates the rate-limit fields with no
fallback and returns `undefined` for 204 or the body otherwise; every other
status updates the fields with the `|| prior` fallback and classifies via
`v1ErrResult`.  Returns the instance state after the call together with the
returned value or thrown error. -/
def handleResponse (st : V1State) (resp : V1Resp) (reqbody : Option Json)
    (req : V1Req) : V1State × Except JsErr JsResult :=
  if 200 ≤ resp.statusCode ∧ resp.statusCode < 300 then
    (v1SuccessState resp,
      if resp.statusCode = 204 then .ok .undefined else .ok (.val resp.body))
  else
    (v1ErrorState st resp, v1ErrResult (v1ErrorState st resp) resp reqbody req)

/-! ## v2 connector (`SortlyConnector` class, node-fetch)

`doFetch(method, url, query, payload, options)` builds one request, issues it,
records the rate-limit headers of whatever response arrives, and either
returns the parsed body (2xx; `{}` for 204 without touching the body) or
delegates to `handleNotOk`.  The transport is a collaborator, so the embedded
`doFetch` takes the `FetchResp` the transport would return and also reports
the `FetchReq` it issued. -/

/-- v2 connector configuration (`constructor(config)`). -/
structure Conn where
  base_url : String
  api_token : String

/-- The mutable rate-limit bookkeeping on a v2 `SortlyConnector` instance;
fields are `null` at construction and hold header strings afterwards
(node-fetch `headers.get` yields `null` for an absent header, modelled as
`none`). -/
structure V2State where
  rate_limit_max : Option String
  rate_limit_remaining : Option String
  rate_limit_reset : Option String

/-- An HTTP response as node-fetch delivers it: status, headers, and the
body's JSON parse (`none` when `response.json()` would reject). -/
structure FetchResp where
  status : Int
  headers : List (String × String)
  jsonBody : Option Json

/-- The request `doFetch` hands to node-fetch: method, full URL (query string
included), headers, and the serialized body if any. -/
structure FetchReq where
  method : String
  url : String
  reqHeaders : List (String × String)
  body : Option String

/-- ASCII lower-casing of one character (header names are ASCII). -/
def asciiLowerChar (c : Char) : Char :=
  if 'A' ≤ c ∧ c ≤ 'Z' then Char.ofNat (c.toNat + 32) else c

/-- ASCII lower-casing of a header name. -/
def asciiLower (s : String) : String :=
  String.mk (s.data.map asciiLowerChar)

/-- node-fetch `Headers.get`: case-insensitive lookup, `null` when absent. -/
def headersGet (hs : List (String × String)) (name : String) : Option String :=
  (hs.find? (fun p => asciiLower p.1 = asciiLower name)).map (fun p => p.2)

/-- Set one key of a JavaScript object literal: overwrite in place when the
key exists, append otherwise. -/
def setKey (l : List (String × String)) (kv : String × String) :
    List (String × String) :=
  if l.any (fun p => p.1 = kv.1) then
    l.map (fun p => if p.1 = kv.1 then kv else p)
  else l ++ [kv]

/-- `Object.assign(target, source)`: copy every member of `source` into
`target`, keeping target members whose keys `source` lacks. -/
def objectAssign (target source : List (String × String)) :
    List (String × String) :=
  source.foldl setKey target

/-- The default header set `doFetch` builds before any override. -/
def defaultHeaders (conn : Conn) : List (String × String) :=
  [("Content-Type", "application/json"),
   ("User-Agent", "Apigrate Sortly Connector/2.x"),
   ("Authorization", "Bearer " ++ conn.api_token)]

/-- Insert one pair into a key-sorted list (for query-string's sorted
serialization). -/
def insertSorted (p : String × String) : List (String × String) →
    List (String × String)
  | [] => [p]
  | q :: qs => if p.1 ≤ q.1 then p :: q :: qs else q :: insertSorted p qs

/-- Key-sort a query object, as the query-string library does. -/
def sortByKey (l : List (String × String)) : List (String × String) :=
  l.foldr insertSorted []

/-- Query-string serialization: `key=value` pairs joined by `&`, keys sorted;
percent-encoding is not modelled. -/
def qsStringify (q : List (String × String)) : String :=
  String.intercalate "&" ((sortByKey q).map (fun p => p.1 ++ "=" ++ p.2))

/-- JavaScript member read `j.name` as an expression that can throw: on a
`null` receiver it raises `TypeError` (reading any property of `null`); on
every other JSON value (objects, arrays, and boxed primitives) it yields the
member or `undefined`. -/
def jsMember (j : Json) (name : String) : Except JsErr (Option Json) :=
  match j with
  | .null => .error (.typeError name)
  | _ => .ok (j.getField name)

/-- v2 `SortlyConnector.handleNotOk(response)`: parse the body as JSON first
(a parse failure rejects before any classification), then 3xx falls through
the empty redirection branch to `return result`; 4xx throws `ApiAuthError`
for 401/403 and otherwise `ApiError` with the body's `message` member (that
very read throws `TypeError` when the body decoded to JSON `null`); 5xx
throws `ApiError` likewise; anything below 300 that was not ok evaluates the
undeclared `err`. -/
def handleNotOk (resp : FetchResp) : Except JsErr JsResult :=
  match resp.jsonBody with
  | none => .error .jsonParseError
  | some result =>
    if 300 ≤ resp.status ∧ resp.status < 400 then
      .ok (.val result)
    else if 400 ≤ resp.status ∧ resp.status < 500 then
      if resp.status = 401 ∨ resp.status = 403 then
        .error (.apiAuthError (Json.stringify result) resp.status)
      else
        match jsMember result "message" with
        | .ok m => .error (.apiError m (some resp.status))
        | .error e => .error e
    else if 500 ≤ resp.status then
      match jsMember result "message" with
      | .ok m => .error (.apiError m (some resp.status))
      | .error e => .error e
    else
      .error (.referenceError "err")

/-- v2 `SortlyConnector.doFetch`: build the headers (defaults merged with the
caller's overrides via `Object.assign`), the full URL (a `?` query string
whenever a query object is supplied), and the serialized body (when the
payload is truthy); then record the three `Sortly-Rate-Limit-*` headers of the
response unconditionally, return `{}` for 204, the parsed body for other 2xx
(a parse failure rejects), and `handleNotOk`'s outcome otherwise.  Yields the
issued request, the state after the call, and the result or thrown error. -/
def doFetch (conn : Conn) (st : V2State) (method url : String)
    (query : Option (List (String × String))) (payload : Option Json)
    (optHeaders : Option (List (String × String))) (resp : FetchResp) :
    FetchReq × V2State × Except JsErr JsResult :=
  let hs := match optHeaders with
    | some oh => objectAssign (defaultHeaders conn) oh
    | none => defaultHeaders conn
  let qstring := match query with
    | some q => "?" ++ qsStringify q
    | none => ""
  let body := match payload with
    | some j => if j.truthy then some (Json.stringify j) else none
    | none => none
  let req : FetchReq := ⟨method, url ++ qstring, hs, body⟩
  let st' : V2State :=
    ⟨headersGet resp.headers "Sortly-Rate-Limit-Max",
     headersGet resp.headers "Sortly-Rate-Limit-Remaining",
     headersGet resp.headers "Sortly-Rate-Limit-Reset"⟩
  let result : Except JsErr JsResult :=
    if 200 ≤ resp.status ∧ resp.status < 300 then
      if resp.status = 204 then .ok (.val (Json.obj []))
      else
        match resp.jsonBody with
        | some j => .ok (.val j)
        | none => .error .jsonParseError
    else handleNotOk resp
  (req, st', result)

/-- The `if(!result || !result.data) return null; return result.data`
unwrapping shared by `createItem`, `fetchItem` and `moveItem`. -/
def unwrapData (r : JsResult) : JsResult :=
  if r.truthy = false then .null
  else
    match r.field "data" with
    | some d => if d.truthy then .val d else .null
    | none => .null

/-- v2 `SortlyConnector.createItem(item)`: validate that `item` and
`item.name` are truthy (throwing `ApiError` with no status before any
request), then POST the item to `/items` and unwrap the envelope's `data`. -/
def createItem (conn : Conn) (st : V2State) (item : Option Json)
    (resp : FetchResp) : List FetchReq × V2State × Except JsErr JsResult :=
  if truthyOpt item = false then
    ([], st, .error (.apiError (some (.str "Unable to create item. Data is missing.")) none))
  else if truthyOpt ((item.getD Json.null).getField "name") = false then
    ([], st, .error (.apiError (some (.str "Unable to create item. Missing \"name\" property.")) none))
  else
    let it := item.getD Json.null
    let out := doFetch conn st "POST" (conn.base_url ++ "/items") none (some it) none resp
    ([out.1], out.2.1, out.2.2.map unwrapData)

/-- v2 `SortlyConnector.deleteItem(id)`: validate the id, DELETE
`/items/{id}`, return `undefined` on success, propagate errors. -/
def deleteItem (conn : Conn) (st : V2State) (id : Option Int)
    (resp : FetchResp) : List FetchReq × V2State × Except JsErr JsResult :=
  if truthyId id = false then
    ([], st, .error (.apiError (some (.str "Unable to delete item. Missing \"id\" property.")) none))
  else
    let out := doFetch conn st "DELETE"
      (conn.base_url ++ "/items/" ++ toString (id.getD 0)) none none none resp
    ([out.1], out.2.1, out.2.2.map (fun _ => .undefined))

/-- v2 `SortlyConnector.fetchItem(id, include)`: validate the id, GET
`/items/{id}` (with an `include` query member when supplied truthy), unwrap
`data`; an `ApiError` whose `status` is strictly equal to 404 is caught and
converted into `null`, every other error propagates. -/
def fetchItem (conn : Conn) (st : V2State) (id : Option Int)
    (includeArg : Option String) (resp : FetchResp) :
    List FetchReq × V2State × Except JsErr JsResult :=
  if truthyId id = false then
    ([], st, .error (.apiError (some (.str "Unable to fetch item. Missing \"id\" property.")) none))
  else
    let q : Option (List (String × String)) := match includeArg with
      | some s => if s = "" then none else some [("include", s)]
      | none => none
    let out := doFetch conn st "GET"
      (conn.base_url ++ "/items/" ++ toString (id.getD 0)) q none none resp
    ([out.1], out.2.1,
      match out.2.2 with
      | .ok r => .ok (unwrapData r)
      | .error ex =>
        if ex.isApiError = true ∧ ex.status = some 404 then .ok .null
        else .error ex)

/-- v2 `SortlyConnector.moveItem(item_id, quantity, folder_id,
leave_zero_quantity)`: validate that the id is truthy and that `quantity` is
neither `undefined` nor `null` (zero passes), build the payload (`folder_id`
when truthy, `leave_zero_quantity` when neither `undefined` nor `null`), POST
`/items/{id}/move`, and unwrap `data`. -/
def moveItem (conn : Conn) (st : V2State) (item_id : Option Int)
    (quantity : Option Int) (folder_id : Option Int)
    (leave_zero_quantity : Option Bool) (resp : FetchResp) :
    List FetchReq × V2State × Except JsErr JsResult :=
  if truthyId item_id = false then
    ([], st, .error (.apiError (some (.str "Unable to update item. Data is missing.")) none))
  else
    match quantity with
    | none =>
      ([], st, .error (.apiError (some (.str "Unable to move item. Missing \"quantity\" property.")) none))
    | some qty =>
      let payload : Json := .obj ([("quantity", Json.num qty)] ++
        (match folder_id with
         | some f => if f != 0 then [("folder_id", Json.num f)] else []
         | none => []) ++
        (match leave_zero_quantity with
         | some b => [("leave_zero_quantity", Json.bool b)]
         | none => []))
      let out := doFetch conn st "POST"
        (conn.base_url ++ "/items/" ++ toString (item_id.getD 0) ++ "/move")
        none (some payload) none resp
      ([out.1], out.2.1, out.2.2.map unwrapData)

/-- v2 `SortlyConnector.updateItem(item)`: validate that `item` and `item.id`
are truthy, PUT `/items/{item.id}`, discard the result (`return;`), propagate
errors. -/
def updateItem (conn : Conn) (st : V2State) (item : Option Json)
    (resp : FetchResp) : List FetchReq × V2State × Except JsErr JsResult :=
  if truthyOpt item = false then
    ([], st, .error (.apiError (some (.str "Unable to update item. Data is missing.")) none))
  else if truthyOpt ((item.getD Json.null).getField "id") = false then
    ([], st, .error (.apiError (some (.str "Unable to update item. Missing \"id\" property.")) none))
  else
    let it := item.getD Json.null
    let idStr := Json.display ((it.getField "id").getD Json.null)
    let out := doFetch conn st "PUT" (conn.base_url ++ "/items/" ++ idStr)
      none (some it) none resp
    ([out.1], out.2.1, out.2.2.map (fun _ => .undefined))

/-- v2 `SortlyConnector.listCustomAttributes(per_page, page)`: build the query
(`page` overwrites the whole query object when truthy, else `per_page` when
truthy, else none), GET `/custom_fields`, and return `doFetch`'s result
unchanged — no 404 catch, no `data` unwrapping. -/
def listCustomAttributes (conn : Conn) (st : V2State)
    (per_page page : Option Int) (resp : FetchResp) :
    List FetchReq × V2State × Except JsErr JsResult :=
  let q : Option (List (String × String)) :=
    if truthyId page = true then some [("page", toString (page.getD 0))]
    else if truthyId per_page = true then some [("per_page", toString (per_page.getD 0))]
    else none
  let out := doFetch conn st "GET" (conn.base_url ++ "/custom_fields") q
    none none resp
  ([out.1], out.2.1, out.2.2)

/-! ## Concrete fixtures for closed evaluations -/

/-- A v2 connector with the documented production base URL. -/
def defConn : Conn := ⟨"https://api.sortly.co/api/v1", "TOKEN"⟩

/-- The v2 state at construction: all fields `null`. -/
def st0 : V2State := ⟨none, none, none⟩

/-- The v1 state at construction: all fields the number `0`. -/
def v1st0 : V1State := ⟨.num 0, .num 0, .num 0, .num 0⟩

/-- The "Widget" creation payload of the end-to-end scenario. -/
def widgetItem : Json := .obj [("name", .str "Widget")]

/-- A 201 creation response enveloping the created item under `data`. -/
def resp201widget : FetchResp :=
  ⟨201, [("sortly-rate-limit-max", "100")],
   some (.obj [("data", .obj [("id", .num 42), ("name", .str "Widget")])])⟩

/-- A 404 response with a JSON error body. -/
def resp404 : FetchResp := ⟨404, [], some (.obj [("message", .str "Not found")])⟩

/-- A 429 response with a JSON error body. -/
def resp429 : FetchResp := ⟨429, [], some (.obj [("message", .str "Too many requests")])⟩

/-- A 404 response whose body is the JSON literal `null`. -/
def resp404null : FetchResp := ⟨404, [], some Json.null⟩

/-- A 429 response whose body is the JSON literal `null`. -/
def resp429null : FetchResp := ⟨429, [], some Json.null⟩

/-- A 204 no-content response (empty body, so no JSON parse is possible). -/
def resp204 : FetchResp := ⟨204, [], none⟩

/-- A 200 response whose body carries no rate-limit headers. -/
def resp200plain : FetchResp := ⟨200, [], some (.obj [])⟩

/-- A 200 response whose decoded body has no `data` member. -/
def resp200nodata : FetchResp := ⟨200, [], some (.obj [("meta", .obj [])])⟩

/-- A 301 redirection response with a JSON body. -/
def resp301 : FetchResp := ⟨301, [], some (.obj [("a", .num 1)])⟩

/-- A 100 informational response (not ok, below every classified range). -/
def resp100 : FetchResp := ⟨100, [], some (.obj [])⟩

/-- A v1-shaped 204 response. -/
def v1resp204 : V1Resp := ⟨204, [("sortly-rate-limit-max", "9")], .null, "", [], .null⟩

/-- A v1-shaped 403 response. -/
def v1resp403 : V1Resp := ⟨403, [], .null, "Forbidden", [], .obj []⟩

/-- A v1-shaped 301 response. -/
def v1resp301 : V1Resp := ⟨301, [], .null, "", [], .null⟩

/-- A GET request descriptor for the v1 fixtures. -/
def v1reqGet : V1Req := ⟨"GET", "/items/1"⟩

/-- A DELETE request descriptor for the v1 fixtures. -/
def v1reqDel : V1Req := ⟨"DELETE", "/items/1"⟩

/-- A v1-shaped 404 response. -/
def v1resp404 : V1Resp := ⟨404, [], .null, "Not found", [], .obj []⟩

/-- A v1-shaped 429 response carrying a reset header. -/
def v1resp429 : V1Resp :=
  ⟨429, [], .null, "Too Many Requests", [("sortly-rate-limit-reset", "30")], .obj []⟩

/-- A v1-shaped 401 response. -/
def v1resp401 : V1Resp := ⟨401, [], .null, "Unauthorized", [], .obj []⟩

/-- A 401 response with a JSON error body. -/
def resp401 : FetchResp := ⟨401, [], some (.obj [("error", .str "bad token")])⟩

/-- A 403 response with an empty JSON object body. -/
def resp403 : FetchResp := ⟨403, [], some (.obj [])⟩

/-- A 401 response whose body is not valid JSON. -/
def resp401raw : FetchResp := ⟨401, [], none⟩

/-- A 200 response carrying only the reset rate-limit header. -/
def resp200reset : FetchResp :=
  ⟨200, [("sortly-rate-limit-reset", "77")], some (.obj [])⟩

/-! ## Claim theorems -/

/-- Helper: the shared `data`-unwrapping returns `null` whenever the decoded
result is falsy or its `data` member is absent. -/
theorem unwrapData_null (j : Json) (h : j.truthy = false ∨ j.getField "data" = none) :
    unwrapData (.val j) = .null := by
  rcases h with h | h
  · simp [unwrapData, JsResult.truthy, h]
  · by_cases ht : j.truthy = false
    · simp [unwrapData, JsResult.truthy, ht]
    · simp [unwrapData, JsResult.truthy, ht, JsResult.field, h]

/-- Helper: for a non-204 2xx response with a parseable body, `doFetch`
returns the decoded body verbatim. -/
theorem doFetch_ok_body (conn : Conn) (st : V2State) (method url : String)
    (query : Option (List (String × String))) (payload : Option Json)
    (optHeaders : Option (List (String × String))) (resp : FetchResp) (j : Json)
    (h1 : 200 ≤ resp.status) (h2 : resp.status < 300) (h3 : resp.status ≠ 204)
    (hb : resp.jsonBody = some j) :
    (doFetch conn st method url query payload optHeaders resp).2.2 =
      .ok (.val j) := by
  simp [doFetch, h1, h2, h3, hb]

/-- Helper: the member read succeeds on every non-`null` receiver. -/
theorem jsMember_ne_null (j : Json) (name : String) (h : j ≠ Json.null) :
    jsMember j name = .ok (j.getField name) := by
  cases j
  · exact absurd rfl h
  all_goals rfl

/-- Helper: for a 404 response whose body parses to JSON other than `null`,
`doFetch` throws `ApiError` built from the body's `message` member and the
status (a `null` body would make the member read throw `TypeError` instead). -/
theorem doFetch_404 (conn : Conn) (st : V2State) (method url : String)
    (query : Option (List (String × String))) (payload : Option Json)
    (optHeaders : Option (List (String × String))) (resp : FetchResp) (j : Json)
    (h : resp.status = 404) (hb : resp.jsonBody = some j) (hn : j ≠ Json.null) :
    (doFetch conn st method url query payload optHeaders resp).2.2 =
      .error (.apiError (j.getField "message") (some 404)) := by
  simp [doFetch, handleNotOk, h, hb, jsMember_ne_null j "message" hn]

/-- C9: `createItem({name: "Widget"})` issues `POST /items` (under the base
URL, with the default headers) with body `{"name":"Widget"}`, and on a 201
response enveloping `{"id":42,"name":"Widget"}` under `data` it returns that
inner object, not the envelope. -/
theorem c9_create_widget :
    createItem defConn st0 (some widgetItem) resp201widget =
      ([⟨"POST", "https://api.sortly.co/api/v1/items",
         [("Content-Type", "application/json"),
          ("User-Agent", "Apigrate Sortly Connector/2.x"),
          ("Authorization", "Bearer TOKEN")],
         some "\x7b\"name\":\"Widget\"\x7d"⟩],
       ⟨some "100", none, none⟩,
       .ok (.val (Json.obj [("id", Json.num 42), ("name", Json.str "Widget")]))) := rfl

/-- C6: the claim (and the code's own doc comment) says a supplied
`options.headers` replaces the entire default header set; the code instead
merges it into the defaults with `Object.assign`, so a request issued with a
caller-supplied header set still carries the default `User-Agent`,
`Content-Type` and `Authorization` headers (a colliding key overwrites only
that entry). -/
theorem c6_headers_merged_not_replaced :
    ((doFetch defConn st0 "GET" "u" none none (some [("X-Custom", "1")])
        resp200plain).1.reqHeaders =
      [("Content-Type", "application/json"),
       ("User-Agent", "Apigrate Sortly Connector/2.x"),
       ("Authorization", "Bearer TOKEN"),
       ("X-Custom", "1")]) ∧
    ((doFetch defConn st0 "GET" "u" none none
        (some [("User-Agent", "custom/1.0")]) resp200plain).1.reqHeaders =
      [("Content-Type", "application/json"),
       ("User-Agent", "custom/1.0"),
       ("Authorization", "Bearer TOKEN")]) := ⟨rfl, rfl⟩

/-- C7: for statuses outside every classified range the code does not raise
an UnclassifiedError: v2 `handleNotOk` falls through the empty 3xx branch and
silently returns the parsed body, v2 statuses below 200 evaluate the
undeclared variable `err` (an accidental ReferenceError), and the v1
fall-through evaluates the undeclared `responseBody` likewise. -/
theorem c7_unclassified_fallthrough :
    (handleNotOk resp301 = .ok (.val (Json.obj [("a", Json.num 1)]))) ∧
    (handleNotOk resp100 = .error (.referenceError "err")) ∧
    ((handleResponse v1st0 v1resp301 none v1reqGet).2 =
      .error (.referenceError "responseBody")) := ⟨rfl, rfl, rfl⟩

/-- C1 counterexample: a GET request whose response is 404 and raises.  The
v2 `listCustomAttributes` operation issues a GET, and on a 404 response the
classifier's `ApiError` propagates to the caller instead of an empty/null
result: the 404-as-null special case lives only in `fetchItem`'s catch (and
in the v1 connector). -/
theorem c1_counterexample :
    listCustomAttributes defConn st0 none none resp404 =
      ([⟨"GET", "https://api.sortly.co/api/v1/custom_fields",
         [("Content-Type", "application/json"),
          ("User-Agent", "Apigrate Sortly Connector/2.x"),
          ("Authorization", "Bearer TOKEN")], none⟩],
       ⟨none, none, none⟩,
       .error (.apiError (some (.str "Not found")) (some 404))) := rfl

/-- C2 counterexample: the v1 connector's 204 branch is a bare `return;`, so
the call yields `undefined`, which is not the empty result object the claim
requires. -/
theorem c2_counterexample :
    (handleResponse v1st0 v1resp204 none v1reqGet).2 = .ok .undefined ∧
      JsResult.undefined ≠ JsResult.val (Json.obj []) :=
  ⟨rfl, fun h => nomatch h⟩

/-- C3 counterexample: the v2 classifier has no 429 case, so a 429 response
raises a plain `ApiError` (the generic client-error kind) built from the
body's `message`, not a RateLimitExceededError, and no reset value appears. -/
theorem c3_counterexample :
    handleNotOk resp429 =
        .error (.apiError (some (.str "Too many requests")) (some 429)) ∧
      JsErr.isRateLimitExceeded
        (.apiError (some (.str "Too many requests")) (some 429)) = false :=
  ⟨rfl, rfl⟩

/-- C4 counterexample: v2 `doFetch` overwrites the rate-limit fields from the
response headers unconditionally, so when a header is absent the field
becomes `null` rather than keeping the previously recorded value. -/
theorem c4_counterexample :
    (doFetch defConn ⟨none, none, some "5"⟩ "GET" "u" none none none
        resp200plain).2.1.rate_limit_reset = none ∧
      (some "5" : Option String) ≠ none := ⟨rfl, fun h => nomatch h⟩

/-- C5 counterexample: the v1 classifier's 4xx switch has no 403 case, so a
403 response falls to the default branch and raises a plain `Error` reading
`Unhandled Error …` — not an AuthorizationError carrying the body. -/
theorem c5_counterexample :
    (handleResponse v1st0 v1resp403 none v1reqGet).2 =
        .error (.error "Unhandled Error on GET /items/1 (HTTP-403). Forbidden") ∧
      JsErr.isAuthError
        (.error "Unhandled Error on GET /items/1 (HTTP-403). Forbidden") = false :=
  ⟨rfl, rfl⟩

/-- C1 (amended): in the v1 connector every 404 on a GET returns `null`
without raising and every 404 on a non-GET method raises an `Invalid URI`
client error; in the v2 connector the classifier raises `ApiError` for a 404
regardless of method, and only `fetchItem` catches the 404 `ApiError` to
return `null` — provided the error body parses as JSON other than `null`,
since a body of JSON `null` makes the classifier's `result.message` read
throw `TypeError`, which propagates even out of `fetchItem` (last conjunct) —
while `deleteItem` and `updateItem` let the 404 `ApiError` propagate. -/
theorem c1_amended :
    (∀ (st : V1State) (resp : V1Resp) (rb : Option Json) (req : V1Req),
      resp.statusCode = 404 → req.method = "GET" →
      (handleResponse st resp rb req).2 = .ok .null) ∧
    (∀ (st : V1State) (resp : V1Resp) (rb : Option Json) (req : V1Req),
      resp.statusCode = 404 → req.method ≠ "GET" →
      (handleResponse st resp rb req).2 = .error (.error
        ("Invalid URI on " ++ req.method ++ " " ++ req.uri ++
         " (HTTP-" ++ toString resp.statusCode ++ ")."))) ∧
    (∀ (conn : Conn) (st : V2State) (id : Option Int) (resp : FetchResp) (j : Json),
      truthyId id = true → resp.status = 404 → resp.jsonBody = some j →
      j ≠ Json.null →
      (fetchItem conn st id none resp).2.2 = .ok .null) ∧
    (∀ (conn : Conn) (st : V2State) (id : Option Int) (resp : FetchResp) (j : Json),
      truthyId id = true → resp.status = 404 → resp.jsonBody = some j →
      j ≠ Json.null →
      (deleteItem conn st id resp).2.2 =
        .error (.apiError (j.getField "message") (some 404))) ∧
    (∀ (conn : Conn) (st : V2State) (item : Option Json) (resp : FetchResp) (j : Json),
      truthyOpt item = true → truthyOpt ((item.getD Json.null).getField "id") = true →
      resp.status = 404 → resp.jsonBody = some j → j ≠ Json.null →
      (updateItem conn st item resp).2.2 =
        .error (.apiError (j.getField "message") (some 404))) ∧
    (∀ (conn : Conn) (st : V2State) (id : Option Int) (resp : FetchResp),
      truthyId id = true → resp.status = 404 → resp.jsonBody = some Json.null →
      (fetchItem conn st id none resp).2.2 = .error (.typeError "message")) := by
  refine ⟨?_, ?_, ?_, ?_, ?_, ?_⟩
  · intro st resp rb req h hm
    simp [handleResponse, v1ErrResult, h, hm]
  · intro st resp rb req h hm
    simp [handleResponse, v1ErrResult, h, hm]
  · intro conn st id resp j hid h hb hn
    have h404 := doFetch_404 conn st "GET"
      (conn.base_url ++ "/items/" ++ toString (id.getD 0)) none none none resp j h hb hn
    simp [fetchItem, hid, h404, JsErr.isApiError, JsErr.status]
  · intro conn st id resp j hid h hb hn
    have h404 := doFetch_404 conn st "DELETE"
      (conn.base_url ++ "/items/" ++ toString (id.getD 0)) none none none resp j h hb hn
    simp [deleteItem, hid, h404, Except.map]
  · intro conn st item resp j hit hid h hb hn
    have h404 := doFetch_404 conn st "PUT"
      (conn.base_url ++ "/items/" ++
        Json.display (((item.getD Json.null).getField "id").getD Json.null))
      none (some (item.getD Json.null)) none resp j h hb hn
    simp [updateItem, hit, hid, h404, Except.map]
  · intro conn st id resp hid h hb
    simp [fetchItem, hid, doFetch, handleNotOk, h, hb, jsMember, JsErr.isApiError]

/-- C1 (amended) witness: concrete 404 calls — v1 GET yields `null`, v1
DELETE raises `Invalid URI`, v2 `fetchItem` yields `null` on a JSON-object
error body, v2 `deleteItem` and `updateItem` raise `ApiError` with the body's
message and status 404, and a 404 body of JSON `null` makes `fetchItem`
propagate the `TypeError`. -/
theorem c1_amended_witness :
    ((handleResponse v1st0 v1resp404 none v1reqGet).2 = .ok .null) ∧
    ((handleResponse v1st0 v1resp404 none v1reqDel).2 =
      .error (.error "Invalid URI on DELETE /items/1 (HTTP-404).")) ∧
    ((fetchItem defConn st0 (some 1) none resp404).2.2 = .ok .null) ∧
    ((deleteItem defConn st0 (some 1) resp404).2.2 =
      .error (.apiError (some (.str "Not found")) (some 404))) ∧
    ((updateItem defConn st0
        (some (.obj [("id", .num 7), ("name", .str "x")])) resp404).2.2 =
      .error (.apiError (some (.str "Not found")) (some 404))) ∧
    ((fetchItem defConn st0 (some 1) none resp404null).2.2 =
      .error (.typeError "message")) :=
  ⟨c1_amended.1 v1st0 v1resp404 none v1reqGet rfl rfl,
   c1_amended.2.1 v1st0 v1resp404 none v1reqDel rfl (by decide),
   c1_amended.2.2.1 defConn st0 (some 1) resp404
     (.obj [("message", .str "Not found")]) rfl rfl rfl (fun hh => nomatch hh),
   c1_amended.2.2.2.1 defConn st0 (some 1) resp404
     (.obj [("message", .str "Not found")]) rfl rfl rfl (fun hh => nomatch hh),
   c1_amended.2.2.2.2.1 defConn st0
     (some (.obj [("id", .num 7), ("name", .str "x")])) resp404
     (.obj [("message", .str "Not found")]) rfl rfl rfl rfl (fun hh => nomatch hh),
   c1_amended.2.2.2.2.2 defConn st0 (some 1) resp404null rfl rfl rfl⟩

/-- C2 (amended): the v2 connector's `doFetch` returns the empty result
object for every 204 response without attempting to parse a body (the
conclusion holds for every `jsonBody`, including an unparseable one); the v1
connector's `handleResponse` instead returns `undefined` on 204. -/
theorem c2_amended :
    (∀ (conn : Conn) (st : V2State) (method url : String)
      (query : Option (List (String × String))) (payload : Option Json)
      (optHeaders : Option (List (String × String))) (resp : FetchResp),
      resp.status = 204 →
      (doFetch conn st method url query payload optHeaders resp).2.2 =
        .ok (.val (Json.obj []))) ∧
    (∀ (st : V1State) (resp : V1Resp) (rb : Option Json) (req : V1Req),
      resp.statusCode = 204 →
      (handleResponse st resp rb req).2 = .ok .undefined) := by
  constructor
  · intro conn st method url query payload oh resp h
    simp [doFetch, h]
  · intro st resp rb req h
    simp [handleResponse, h]

/-- C2 (amended) witness: a concrete 204 response with an unparseable body —
v2 `doFetch` yields `{}`, v1 `handleResponse` yields `undefined`. -/
theorem c2_amended_witness :
    ((doFetch defConn st0 "GET" "u" none none none resp204).2.2 =
      .ok (.val (Json.obj []))) ∧
    ((handleResponse v1st0 v1resp204 none v1reqGet).2 = .ok .undefined) :=
  ⟨c2_amended.1 defConn st0 "GET" "u" none none none resp204 rfl,
   c2_amended.2 v1st0 v1resp204 none v1reqGet rfl⟩

/-- C3 (amended): in the v1 connector a 429 response raises
`RateLimitExceeded`, and the message interpolates the `rate_limit_reset`
field as just updated by this very response (header value with `|| prior`
fallback) — the most recently recorded reset value; in the v2 connector a
429 instead raises the generic `ApiError` built from the body's `message`
member, with no reset value (and when the 429 body decodes to JSON `null`,
that very member read throws `TypeError` instead). -/
theorem c3_amended :
    (∀ (st : V1State) (resp : V1Resp) (rb : Option Json) (req : V1Req),
      resp.statusCode = 429 →
      (handleResponse st resp rb req).1.rate_limit_reset =
        jsOr (headerLookup resp.respHeaders "sortly-rate-limit-reset")
          st.rate_limit_reset ∧
      (handleResponse st resp rb req).2 = .error (.rateLimitExceeded
        ("Sortly rate limit exceeded on " ++ req.method ++ " " ++ req.uri ++
         ". Try again in " ++
         (jsOr (headerLookup resp.respHeaders "sortly-rate-limit-reset")
           st.rate_limit_reset).display ++ " seconds."))) ∧
    (∀ (resp : FetchResp) (j : Json), resp.status = 429 →
      resp.jsonBody = some j → j ≠ Json.null →
      handleNotOk resp =
        .error (.apiError (j.getField "message") (some 429))) ∧
    (∀ resp : FetchResp, resp.status = 429 → resp.jsonBody = some Json.null →
      handleNotOk resp = .error (.typeError "message")) := by
  refine ⟨?_, ?_, ?_⟩
  · intro st resp rb req h
    constructor
    · simp [handleResponse, v1ErrorState, h]
    · simp [handleResponse, v1ErrResult, v1ErrorState, h]
  · intro resp j h hb hn
    simp [handleNotOk, h, hb, jsMember_ne_null j "message" hn]
  · intro resp h hb
    simp [handleNotOk, h, hb, jsMember]

/-- C3 (amended) witness: a concrete v1 429 response carrying a reset header
of 30 raises `RateLimitExceeded` with the 30 in the message and records it;
the same status in the v2 classifier raises a plain `ApiError` from an object
body, and a `TypeError` from a body of JSON `null`. -/
theorem c3_amended_witness :
    ((handleResponse v1st0 v1resp429 none v1reqGet).1.rate_limit_reset =
        .str "30" ∧
      (handleResponse v1st0 v1resp429 none v1reqGet).2 =
        .error (.rateLimitExceeded
          "Sortly rate limit exceeded on GET /items/1. Try again in 30 seconds.")) ∧
    (handleNotOk resp429 =
      .error (.apiError (some (.str "Too many requests")) (some 429))) ∧
    (handleNotOk resp429null = .error (.typeError "message")) :=
  ⟨c3_amended.1 v1st0 v1resp429 none v1reqGet rfl,
   c3_amended.2.1 resp429 (.obj [("message", .str "Too many requests")]) rfl rfl
     (fun hh => nomatch hh),
   c3_amended.2.2 resp429null rfl rfl⟩

/-- C4 (amended): the rate-limit bookkeeping after a call is taken from the
response's headers, but the prior-value fallback exists only on the v1 error
path: v2 `doFetch` always overwrites the three fields with the response's
header values (`null` when absent), the v1 2xx branch overwrites them with no
fallback (`undefined` when absent), and only the v1 non-2xx branch keeps the
prior value when a rate-limit header is absent (`request_id` excepted). -/
theorem c4_amended :
    (∀ (conn : Conn) (st : V2State) (method url : String)
      (query : Option (List (String × String))) (payload : Option Json)
      (optHeaders : Option (List (String × String))) (resp : FetchResp),
      (doFetch conn st method url query payload optHeaders resp).2.1 =
        ⟨headersGet resp.headers "Sortly-Rate-Limit-Max",
         headersGet resp.headers "Sortly-Rate-Limit-Remaining",
         headersGet resp.headers "Sortly-Rate-Limit-Reset"⟩) ∧
    (∀ (st : V1State) (resp : V1Resp) (rb : Option Json) (req : V1Req),
      200 ≤ resp.statusCode ∧ resp.statusCode < 300 →
      (handleResponse st resp rb req).1 =
        ⟨toJsVal (headerLookup resp.headers "sortly-rate-limit-max"),
         toJsVal (headerLookup resp.headers "sortly-rate-limit-remaining"),
         toJsVal (headerLookup resp.headers "sortly-rate-limit-reset"),
         toJsVal (headerLookup resp.headers "x-request-id")⟩) ∧
    (∀ (st : V1State) (resp : V1Resp) (rb : Option Json) (req : V1Req),
      ¬(200 ≤ resp.statusCode ∧ resp.statusCode < 300) →
      (handleResponse st resp rb req).1 =
        ⟨jsOr (headerLookup resp.respHeaders "sortly-rate-limit-max")
           st.rate_limit,
         jsOr (headerLookup resp.respHeaders "sortly-rate-limit-remaining")
           st.rate_limit_remaining,
         jsOr (headerLookup resp.respHeaders "sortly-rate-limit-reset")
           st.rate_limit_reset,
         toJsVal (headerLookup resp.respHeaders "x-request-id")⟩) := by
  refine ⟨fun conn st method url query payload oh resp => rfl, ?_, ?_⟩
  · intro st resp rb req h
    unfold handleResponse
    rw [if_pos h]
    rfl
  · intro st resp rb req h
    unfold handleResponse
    rw [if_neg h]
    rfl

/-- C4 (amended) witness: v2 `doFetch` records the reset header `77` of a
concrete 200 response (other fields become `null`); a v1 2xx response with
only a max header of `9` leaves the other fields `undefined`; a v1 403
response with no rate-limit headers keeps the prior `0` values. -/
theorem c4_amended_witness :
    ((doFetch defConn st0 "GET" "u" none none none resp200reset).2.1 =
      ⟨none, none, some "77"⟩) ∧
    ((handleResponse v1st0 v1resp204 none v1reqGet).1 =
      ⟨.str "9", .undefined, .undefined, .undefined⟩) ∧
    ((handleResponse v1st0 v1resp403 none v1reqGet).1 =
      ⟨.num 0, .num 0, .num 0, .undefined⟩) :=
  ⟨c4_amended.1 defConn st0 "GET" "u" none none none resp200reset,
   c4_amended.2.1 v1st0 v1resp204 none v1reqGet (by decide),
   c4_amended.2.2 v1st0 v1resp403 none v1reqGet (by decide)⟩

/-- C5 (amended): in the v2 connector a 401 or 403 response raises
`ApiAuthError` carrying `JSON.stringify` of the decoded body and the status
code, and an unparseable body makes the JSON-parse failure propagate instead;
in the v1 connector a 401 raises only a plain `Error` with an
`Authorization Error` message (no body), and a 403 is not an authorization
case at all (see the counterexample). -/
theorem c5_amended :
    (∀ (resp : FetchResp) (j : Json),
      (resp.status = 401 ∨ resp.status = 403) → resp.jsonBody = some j →
      handleNotOk resp =
        .error (.apiAuthError (Json.stringify j) resp.status)) ∧
    (∀ resp : FetchResp,
      (resp.status = 401 ∨ resp.status = 403) → resp.jsonBody = none →
      handleNotOk resp = .error .jsonParseError) ∧
    (∀ (st : V1State) (resp : V1Resp) (rb : Option Json) (req : V1Req),
      resp.statusCode = 401 →
      (handleResponse st resp rb req).2 = .error (.error
        ("Authorization Error on " ++ req.method ++ " " ++ req.uri ++
         " (HTTP-" ++ toString resp.statusCode ++ "). " ++ resp.message))) := by
  refine ⟨?_, ?_, ?_⟩
  · intro resp j h hb
    rcases h with h | h <;> simp [handleNotOk, h, hb]
  · intro resp h hb
    simp [handleNotOk, hb]
  · intro st resp rb req h
    simp [handleResponse, v1ErrResult, h]

/-- C5 (amended) witness: concrete 401 and 403 responses raise `ApiAuthError`
with the stringified body and status in v2; a 401 with an unparseable body
propagates the parse failure; a concrete v1 401 raises the plain
`Authorization Error` message. -/
theorem c5_amended_witness :
    (handleNotOk resp401 =
      .error (.apiAuthError "\x7b\"error\":\"bad token\"\x7d" 401)) ∧
    (handleNotOk resp403 = .error (.apiAuthError "\x7b\x7d" 403)) ∧
    (handleNotOk resp401raw = .error .jsonParseError) ∧
    ((handleResponse v1st0 v1resp401 none v1reqGet).2 =
      .error (.error "Authorization Error on GET /items/1 (HTTP-401). Unauthorized")) :=
  ⟨c5_amended.1 resp401 (.obj [("error", .str "bad token")]) (Or.inl rfl) rfl,
   c5_amended.1 resp403 (.obj []) (Or.inr rfl) rfl,
   c5_amended.2.1 resp401raw (Or.inl rfl) rfl,
   c5_amended.2.2 v1st0 v1resp401 none v1reqGet rfl⟩

/-- C8: the v2 operations validate their required parameters locally.
`createItem` without a truthy item or without a truthy (non-empty) name,
`moveItem` without a truthy item id or with `quantity` absent, and
`updateItem` without a truthy item or id, each raise `ApiError` while issuing
no request and leaving the connector state unchanged, whatever response the
transport would have produced; and `moveItem` with `quantity` zero passes
validation and issues its one request. -/
theorem c8_validation (conn : Conn) (st : V2State) (resp : FetchResp) :
    (∀ item : Option Json,
      truthyOpt item = false ∨
        truthyOpt ((item.getD Json.null).getField "name") = false →
      ∃ m, createItem conn st item resp =
        ([], st, .error (.apiError (some (.str m)) none))) ∧
    (∀ (item_id quantity folder_id : Option Int) (lzq : Option Bool),
      truthyId item_id = false ∨ quantity = none →
      ∃ m, moveItem conn st item_id quantity folder_id lzq resp =
        ([], st, .error (.apiError (some (.str m)) none))) ∧
    (∀ item : Option Json,
      truthyOpt item = false ∨
        truthyOpt ((item.getD Json.null).getField "id") = false →
      ∃ m, updateItem conn st item resp =
        ([], st, .error (.apiError (some (.str m)) none))) ∧
    (∀ (item_id folder_id : Option Int) (lzq : Option Bool),
      truthyId item_id = true →
      (moveItem conn st item_id (some 0) folder_id lzq resp).1.length = 1) := by
  refine ⟨?_, ?_, ?_, ?_⟩
  · intro item h
    by_cases hi : truthyOpt item = false
    · exact ⟨"Unable to create item. Data is missing.", by simp [createItem, hi]⟩
    · rcases h with h | h
      · exact absurd h hi
      · exact ⟨"Unable to create item. Missing \"name\" property.",
          by simp [createItem, hi, h]⟩
  · intro item_id quantity folder_id lzq h
    by_cases hi : truthyId item_id = false
    · exact ⟨"Unable to update item. Data is missing.", by simp [moveItem, hi]⟩
    · rcases h with h | h
      · exact absurd h hi
      · exact ⟨"Unable to move item. Missing \"quantity\" property.",
          by simp [moveItem, hi, h]⟩
  · intro item h
    by_cases hi : truthyOpt item = false
    · exact ⟨"Unable to update item. Data is missing.", by simp [updateItem, hi]⟩
    · rcases h with h | h
      · exact absurd h hi
      · exact ⟨"Unable to update item. Missing \"id\" property.",
          by simp [updateItem, hi, h]⟩
  · intro item_id folder_id lzq hi
    simp [moveItem, hi]

/-- C8 witness: concrete invalid invocations — `createItem` with no item,
`moveItem` with an id but no quantity, `updateItem` with an item lacking an
id — each yield no request, the unchanged state and an `ApiError`; and
`moveItem` with quantity `0` does issue its request. -/
theorem c8_validation_witness :
    (∃ m, createItem defConn st0 none resp200plain =
      ([], st0, .error (.apiError (some (.str m)) none))) ∧
    (∃ m, moveItem defConn st0 (some 5) none none none resp200plain =
      ([], st0, .error (.apiError (some (.str m)) none))) ∧
    (∃ m, updateItem defConn st0 (some (.obj [("name", .str "x")])) resp200plain =
      ([], st0, .error (.apiError (some (.str m)) none))) ∧
    ((moveItem defConn st0 (some 5) (some 0) none none resp200plain).1.length = 1) :=
  ⟨(c8_validation defConn st0 resp200plain).1 none (Or.inl rfl),
   (c8_validation defConn st0 resp200plain).2.1 (some 5) none none none (Or.inr rfl),
   (c8_validation defConn st0 resp200plain).2.2.1
     (some (.obj [("name", .str "x")])) (Or.inr rfl),
   (c8_validation defConn st0 resp200plain).2.2.2 (some 5) none none rfl⟩

/-- C10: for `createItem`, `fetchItem` and `moveItem` (with locally valid
arguments), when the HTTP call succeeds with a non-204 2xx status and the
decoded body is falsy or lacks a `data` member, the operation returns `null`
rather than the body or the envelope. -/
theorem c10_missing_data_null (conn : Conn) (st : V2State) (resp : FetchResp)
    (j : Json) (h1 : 200 ≤ resp.status) (h2 : resp.status < 300)
    (h3 : resp.status ≠ 204) (hb : resp.jsonBody = some j)
    (hd : j.truthy = false ∨ j.getField "data" = none) :
    (∀ item : Option Json, truthyOpt item = true →
      truthyOpt ((item.getD Json.null).getField "name") = true →
      (createItem conn st item resp).2.2 = .ok .null) ∧
    (∀ (id : Option Int) (inc : Option String), truthyId id = true →
      (fetchItem conn st id inc resp).2.2 = .ok .null) ∧
    (∀ (item_id : Option Int) (qty : Int) (folder_id : Option Int)
      (lzq : Option Bool), truthyId item_id = true →
      (moveItem conn st item_id (some qty) folder_id lzq resp).2.2 = .ok .null) := by
  refine ⟨?_, ?_, ?_⟩
  · intro item hit hn
    simp only [createItem, hit, hn, Bool.true_eq_false, if_false]
    rw [doFetch_ok_body conn st _ _ _ _ _ resp j h1 h2 h3 hb]
    simp [Except.map, unwrapData_null j hd]
  · intro id inc hid
    simp only [fetchItem, hid, Bool.true_eq_false, if_false]
    rw [doFetch_ok_body conn st _ _ _ _ _ resp j h1 h2 h3 hb]
    simp [unwrapData_null j hd]
  · intro item_id qty folder_id lzq hid
    simp only [moveItem, hid, Bool.true_eq_false, if_false]
    rw [doFetch_ok_body conn st _ _ _ _ _ resp j h1 h2 h3 hb]
    simp [Except.map, unwrapData_null j hd]

/-- C10 witness: a concrete 200 response whose body is `{"meta":{}}` (no
`data` member) makes `createItem`, `fetchItem` and `moveItem` all return
`null`. -/
theorem c10_missing_data_null_witness :
    ((createItem defConn st0 (some widgetItem) resp200nodata).2.2 = .ok .null) ∧
    ((fetchItem defConn st0 (some 1) none resp200nodata).2.2 = .ok .null) ∧
    ((moveItem defConn st0 (some 5) (some 2) (some 10) none resp200nodata).2.2 =
      .ok .null) :=
  ⟨(c10_missing_data_null defConn st0 resp200nodata (.obj [("meta", .obj [])])
      (by decide) (by decide) (by decide) rfl (Or.inr rfl)).1
      (some widgetItem) rfl rfl,
   (c10_missing_data_null defConn st0 resp200nodata (.obj [("meta", .obj [])])
      (by decide) (by decide) (by decide) rfl (Or.inr rfl)).2.1
      (some 1) none rfl,
   (c10_missing_data_null defConn st0 resp200nodata (.obj [("meta", .obj [])])
      (by decide) (by decide) (by decide) rfl (Or.inr rfl)).2.2
      (some 5) 2 (some 10) none rfl⟩

end Sortly
